import Mathlib

/-!
Shallow embedding of the tor-fetch control-channel core
(`createProxySettings`, `attachCommonControlPortErrorDetails`,
`TorControlPort.send`, `renewTorSession`) together with proofs of the
specification claims about it.

Strings are modelled by Lean `String`; the JavaScript string operations
`split`, `slice(0, -1)`, `every`, `includes` and `Array.prototype.join`
are modelled by executable Lean functions over `List Char` / `List String`
with the same semantics (for a one-character separator, which is the only
case the source uses).
-/

namespace TorFetch

/-- JS `Array.prototype.join(sep)`. -/
def jsJoin (sep : String) : List String → String
  | [] => ""
  | [x] => x
  | x :: y :: rest => x ++ sep ++ jsJoin sep (y :: rest)

/-- Helper for `jsSplitNl`: scan the character list, cutting at every
newline; `acc` holds the characters of the current field in reverse. -/
def splitNlAux : List Char → List Char → List (List Char)
  | [], acc => [acc.reverse]
  | c :: rest, acc =>
    if c = '\n' then acc.reverse :: splitNlAux rest []
    else splitNlAux rest (c :: acc)

/-- JS `str.split('\n')` (the separator actually used by the source:
`os?.EOL || '\n'`, which is `'\n'` on the supported platforms). -/
def jsSplitNl (s : String) : List (List Char) :=
  splitNlAux s.toList []

/-- Bool-valued prefix test on character lists (structural model of the
scanning that underlies JS `String.prototype.includes`). -/
def chPrefixAt : List Char → List Char → Bool
  | [], _ => true
  | _ :: _, [] => false
  | a :: as, b :: bs => a = b && chPrefixAt as bs

/-- Bool-valued substring test: `chContains needle hay` is JS
`hay.includes(needle)`. -/
def chContains (needle : List Char) : List Char → Bool
  | [] => chPrefixAt needle []
  | b :: bs => chPrefixAt needle (b :: bs) || chContains needle bs

/-- JS `hay.includes(needle)` on strings. -/
def jsIncludes (hay needle : String) : Bool :=
  chContains needle.toList hay.toList

/-- The per-line success test of `renewTorSession`:
`(val) => val.length <= 0 || val.includes('250')`. -/
def lineOk (val : List Char) : Bool :=
  decide (val.length ≤ 0) || chContains "250".toList val

/-- The response classifier of `renewTorSession`:
`data.split(os?.EOL || '\n').slice(0, -1)` then
`.every((val) => val.length <= 0 || val.includes('250'))`. -/
def classify (raw : String) : Bool :=
  ((jsSplitNl raw).dropLast).all lineOk

/-- The fixed part of the ControlPort remediation hint (the text of the
source attachment up to the interpolated `getTorrcLocation()` call). -/
def hintCore : String := "Have you enabled the ControlPort in your `torrc` file?"

/-- The tail of the ControlPort remediation hint, after the interpolated
torrc location. -/
def controlPortAttachmentRest : String := ")\n\nSee easy guide here (OSX, Linux, Windows):\nhttps://github.com/talmobi/tor-request#optional-configuring-tor-enabling-the-controlport\n\n Sample torrc file:\n     ControlPort 9051\n     HashedControlPassword 16:AEBC98A67.....E81DF\n\n   Generate HashedControlPassword with (last output line):\n     `tor --hash-password my_secret_password`\n\n   Tell tor-request the password to use:\n     `import torFetch from \"tor-request\";\n      torFetch.TorControlPort.password = \"my_secret_password\";`\n"

/-- The `attachment` template literal of
`attachCommonControlPortErrorDetails`, parameterised by the result of
`getTorrcLocation()` (which probes the filesystem, so it is a parameter
of the model rather than a constant). -/
def controlPortAttachment (torrcLoc : String) : String :=
  " - " ++ hintCore ++ " (" ++ torrcLoc ++ controlPortAttachmentRest

/-- `attachCommonControlPortErrorDetails`: errors are modelled by their
`message` string; the attachment is appended unless already present
(`if (!err.message.includes(attachment)) err.message += attachment`). -/
def attachCommonControlPortErrorDetails (torrcLoc msg : String) : String :=
  if jsIncludes msg (controlPortAttachment torrcLoc) then msg
  else msg ++ controlPortAttachment torrcLoc

/-- Transport events a socket can deliver to the handlers that
`TorControlPort.send` registers. -/
inductive SockEvent
  | data (chunk : String)
  | error (msg : String)
  | ended
deriving DecidableEq

/-- The event loop of `TorControlPort.send`: `data` chunks are appended to
the accumulator, the first `error` event completes with the error (after
attaching the ControlPort hint), the first `end` event completes with the
accumulated data; with no completing event the call never completes
(`none`). -/
def runSendEvents (torrcLoc : String) : List SockEvent → String → Option (Except String String)
  | [], _ => none
  | SockEvent.data c :: rest, acc => runSendEvents torrcLoc rest (acc ++ c)
  | SockEvent.error m :: _, _ =>
      some (Except.error (attachCommonControlPortErrorDetails torrcLoc m))
  | SockEvent.ended :: _, acc => some (Except.ok acc)

/-- Result of one `send` call: the byte sequence written to the socket on
connect, and the completion outcome driven by the transport events. -/
structure SendResult where
  written : String
  outcome : Option (Except String String)

namespace TorControlPort

/-- `TorControlPort.send`: on connect it writes
`commands.join('\n') + '\n'` in a single write, then the registered
handlers fold over the transport events. -/
def send (torrcLoc : String) (commands : List String) (events : List SockEvent) : SendResult :=
  { written := jsJoin "\n" commands ++ "\n"
    outcome := runSendEvents torrcLoc events "" }

end TorControlPort

/-- The fixed success message of `renewTorSession`. -/
def renewSuccessMessage : String := "Tor session successfully renewed!!"

/-- The command batch `renewTorSession` builds:
`[`authenticate "<password>"`, 'signal newnym', 'quit']`. -/
def renewCommands (password : String) : List String :=
  ["authenticate \"" ++ password ++ "\"", "signal newnym", "quit"]

/-- The completion callback of `renewTorSession`: propagate a transport
error (with the hint attached); otherwise classify the raw response and
complete with the fixed success message or with a new error embedding the
raw response. -/
def renewFromSend (torrcLoc : String) : Except String String → Except String String
  | Except.error e => Except.error (attachCommonControlPortErrorDetails torrcLoc e)
  | Except.ok raw =>
    if classify raw then Except.ok renewSuccessMessage
    else
      Except.error (attachCommonControlPortErrorDetails torrcLoc
        ("Error communicating with Tor ControlPort\n" ++ raw))

/-- `renewTorSession`: build the command batch from the current password,
call `TorControlPort.send`, and post-process its outcome with the
completion callback. -/
def renewTorSession (torrcLoc password : String) (events : List SockEvent) : SendResult :=
  let s := TorControlPort.send torrcLoc (renewCommands password) events
  { written := s.written
    outcome := s.outcome.map (renewFromSend torrcLoc) }

/-- `ProxySettings` record. -/
structure ProxySettings where
  ipaddress : String
  port : Nat
  type : Nat
deriving DecidableEq

/-- JS `a || b` for optional strings (`undefined` is `none`, and the empty
string is falsy). -/
def jsOrString : Option String → String → String
  | none, d => d
  | some s, d => if s = "" then d else s

/-- JS `a || b` for optional numbers (`undefined` is `none`, and `0` is
falsy). -/
def jsOrNat : Option Nat → Nat → Nat
  | none, d => d
  | some n, d => if n = 0 then d else n

/-- `_defaultProxySettings`, which is `createProxySettings('localhost',
9050)` evaluated at module initialisation (so
`{ipaddress: '127.0.0.1', port: 9050, type: 5}`) and never reassigned. -/
def defaultProxySettings : ProxySettings :=
  { ipaddress := "127.0.0.1", port := 9050, type := 5 }

/-- `createProxySettings`: fill each field from the argument, the default
settings, then the hard-coded fallback (JS `||` chains), and replace a
`'localhost'` ipaddress by `'127.0.0.1'`. -/
def createProxySettings (ipaddress : Option String) (port : Option Nat) (type : Option Nat) :
    ProxySettings :=
  let dps := defaultProxySettings
  let proxySetup : ProxySettings :=
    { ipaddress := jsOrString ipaddress (jsOrString (some dps.ipaddress) "127.0.0.1")
      port := jsOrNat port (jsOrNat (some dps.port) 9050)
      type := jsOrNat type (jsOrNat (some dps.type) 5) }
  if proxySetup.ipaddress = "localhost" then { proxySetup with ipaddress := "127.0.0.1" }
  else proxySetup

end TorFetch

namespace TorFetch

theorem chPrefixAt_iff (n h : List Char) : chPrefixAt n h = true ↔ n <+: h := by
  induction n generalizing h with
  | nil => simp [chPrefixAt]
  | cons a as ih =>
    cases h with
    | nil => simp [chPrefixAt]
    | cons b bs =>
      simp only [chPrefixAt, Bool.and_eq_true, decide_eq_true_eq, ih,
        List.cons_prefix_cons]

theorem chContains_iff (n h : List Char) : chContains n h = true ↔ n <:+: h := by
  induction h with
  | nil =>
    cases n with
    | nil => simp [chContains, chPrefixAt]
    | cons a as => simp [chContains, chPrefixAt]
  | cons b bs ih =>
    simp only [chContains, Bool.or_eq_true, chPrefixAt_iff, ih,
      List.infix_cons_iff]

theorem jsIncludes_iff (hay needle : String) :
    jsIncludes hay needle = true ↔ needle.toList <:+: hay.toList := by
  simp [jsIncludes, chContains_iff]

theorem strToList_append (s t : String) : (s ++ t).toList = s.toList ++ t.toList :=
  String.data_append s t

theorem splitNlAux_ne_nil : ∀ (l acc : List Char), splitNlAux l acc ≠ []
  | [], acc => by simp [splitNlAux]
  | c :: rest, acc => by
    simp only [splitNlAux]
    split
    · simp
    · exact splitNlAux_ne_nil rest _

theorem splitNlAux_no_nl : ∀ (l acc : List Char), '\n' ∉ l → splitNlAux l acc = [acc.reverse ++ l]
  | [], _, _ => by simp [splitNlAux]
  | c :: rest, acc, h => by
    simp only [List.mem_cons, not_or] at h
    obtain ⟨h1, h2⟩ := h
    simp only [splitNlAux, if_neg (fun e => h1 (Eq.symm e)), splitNlAux_no_nl rest (c :: acc) h2]
    simp

theorem splitNlAux_append_nl (v : List Char) (hv : '\n' ∉ v) :
    ∀ (u acc : List Char),
      (splitNlAux (u ++ '\n' :: v) acc).dropLast = splitNlAux u acc
  | [], acc => by
    rw [List.nil_append]
    have e1 : splitNlAux ('\n' :: v) acc = acc.reverse :: splitNlAux v [] := by
      simp [splitNlAux]
    rw [e1, splitNlAux_no_nl v [] hv]
    simp [splitNlAux]
  | c :: u, acc => by
    by_cases hc : c = '\n'
    · subst hc
      have e1 : splitNlAux (('\n' :: u) ++ '\n' :: v) acc =
          acc.reverse :: splitNlAux (u ++ '\n' :: v) [] := by
        simp [splitNlAux]
      rw [e1, List.dropLast_cons_of_ne_nil (splitNlAux_ne_nil _ _),
        splitNlAux_append_nl v hv u []]
      simp [splitNlAux]
    · simp only [List.cons_append, splitNlAux, if_neg hc]
      exact splitNlAux_append_nl v hv u (c :: acc)

theorem classify_terminated_drop (u v : String) (hv : '\n' ∉ v.toList) :
    classify (u ++ "\n" ++ v) = (jsSplitNl u).all lineOk := by
  unfold classify
  have h1 : (u ++ "\n" ++ v).toList = u.toList ++ '\n' :: v.toList := by
    rw [strToList_append, strToList_append]
    simp [show ("\n" : String).toList = ['\n'] from rfl]
  unfold jsSplitNl
  rw [h1, splitNlAux_append_nl v.toList hv u.toList []]

theorem classify_no_nl (v : String) (hv : '\n' ∉ v.toList) : classify v = true := by
  unfold classify jsSplitNl
  rw [splitNlAux_no_nl v.toList [] hv]
  simp

theorem jsIncludes_append_self (msg a : String) : jsIncludes (msg ++ a) a = true := by
  rw [jsIncludes_iff, strToList_append]
  exact ⟨msg.toList, [], by simp⟩

theorem attachDetails_idem (loc msg : String) :
    attachCommonControlPortErrorDetails loc (attachCommonControlPortErrorDetails loc msg) =
      attachCommonControlPortErrorDetails loc msg := by
  by_cases h : jsIncludes msg (controlPortAttachment loc) = true
  · have h1 : attachCommonControlPortErrorDetails loc msg = msg := by
      unfold attachCommonControlPortErrorDetails
      rw [if_pos h]
    rw [h1]
    exact h1
  · have h1 : attachCommonControlPortErrorDetails loc msg =
        msg ++ controlPortAttachment loc := by
      unfold attachCommonControlPortErrorDetails
      rw [if_neg h]
    rw [h1]
    unfold attachCommonControlPortErrorDetails
    rw [if_pos (jsIncludes_append_self msg (controlPortAttachment loc))]

theorem hintCore_infix_attachment (loc : String) :
    hintCore.toList <:+: (controlPortAttachment loc).toList := by
  unfold controlPortAttachment
  rw [strToList_append, strToList_append, strToList_append]
  exact ⟨(" - " : String).toList,
    (" (" : String).toList ++ loc.toList ++ controlPortAttachmentRest.toList, by simp⟩

theorem hintCore_infix_attach (loc msg : String) :
    hintCore.toList <:+: (attachCommonControlPortErrorDetails loc msg).toList := by
  unfold attachCommonControlPortErrorDetails
  split
  · rename_i h
    exact (hintCore_infix_attachment loc).trans ((jsIncludes_iff _ _).mp h)
  · rw [strToList_append]
    exact (hintCore_infix_attachment loc).trans ⟨msg.toList, [], by simp⟩

theorem runSendEvents_error_first (loc m : String) (rest : List SockEvent) :
    ∀ (pre : List SockEvent) (acc : String),
      (∀ e ∈ pre, ∃ c, e = SockEvent.data c) →
      runSendEvents loc (pre ++ SockEvent.error m :: rest) acc =
        some (Except.error (attachCommonControlPortErrorDetails loc m))
  | [], acc, _ => by simp [runSendEvents]
  | e :: pre, acc, h => by
    obtain ⟨c, rfl⟩ := h e (List.mem_cons_self e pre)
    simp only [List.cons_append, runSendEvents]
    exact runSendEvents_error_first loc m rest pre (acc ++ c)
      (fun e he => h e (List.mem_cons_of_mem _ he))

/-- C1: `classify raw` is true if and only if every line obtained by
splitting `raw` at the line terminator and dropping the last element is
either empty or contains `"250"` as a substring at any position; the
conjunction is vacuously true when zero lines remain. -/
theorem classify_iff_every_line_empty_or_contains_250 (raw : String) :
    classify raw = true ↔
      ∀ l ∈ (jsSplitNl raw).dropLast, l = [] ∨ ("250" : String).toList <:+: l := by
  unfold classify
  rw [List.all_eq_true]
  constructor
  · intro h l hl
    have := h l hl
    simpa [lineOk, Nat.le_zero, List.length_eq_zero, chContains_iff] using this
  · intro h l hl
    have := h l hl
    simpa [lineOk, Nat.le_zero, List.length_eq_zero, chContains_iff] using this

/-- C6: the empty raw response classifies as true: splitting `""` and
dropping the last element leaves zero lines, and `every` over zero lines
is vacuously true. -/
theorem classify_empty_true :
    classify "" = true ∧ (jsSplitNl "").dropLast = [] := by
  constructor <;> rfl

/-- C5: the classifier silently discards an unterminated final line: the
classification of `u ++ "\n" ++ v` does not depend on the content of the
newline-free tail `v`, and a raw response consisting of a single
unterminated line classifies as true whatever its status code. -/
theorem classify_discards_unterminated_last_line :
    (∀ u v₁ v₂ : String, '\n' ∉ v₁.toList → '\n' ∉ v₂.toList →
        classify (u ++ "\n" ++ v₁) = classify (u ++ "\n" ++ v₂)) ∧
      ∀ v : String, '\n' ∉ v.toList → classify v = true := by
  constructor
  · intro u v₁ v₂ h1 h2
    rw [classify_terminated_drop u v₁ h1, classify_terminated_drop u v₂ h2]
  · exact classify_no_nl

/-- Witness for C5 at concrete inputs: an unterminated `515 garbage` tail
does not change the classification, and a lone unterminated `515` line
classifies as true. -/
theorem classify_discards_unterminated_last_line_witness :
    classify ("250 OK" ++ "\n" ++ "515 garbage") = classify ("250 OK" ++ "\n" ++ "zzz") ∧
      classify "515 alone" = true :=
  ⟨classify_discards_unterminated_last_line.1 "250 OK" "515 garbage" "zzz"
      (by decide) (by decide),
    classify_discards_unterminated_last_line.2 "515 alone" (by decide)⟩

/-- C8: attaching the ControlPort remediation hint to an error message is
idempotent: attaching it twice gives the same message as attaching it
once. -/
theorem attachControlPortDetails_idempotent (loc msg : String) :
    attachCommonControlPortErrorDetails loc (attachCommonControlPortErrorDetails loc msg) =
      attachCommonControlPortErrorDetails loc msg :=
  attachDetails_idem loc msg

/-- C9: `createProxySettings` never returns the ipaddress `"localhost"`;
passing `"localhost"` yields `"127.0.0.1"`, and an absent port or type
falls back to the defaults `9050` and `5`. -/
theorem createProxySettings_no_localhost (ip : Option String) (p t : Option Nat) :
    (createProxySettings ip p t).ipaddress ≠ "localhost" ∧
      (createProxySettings (some "localhost") p t).ipaddress = "127.0.0.1" ∧
      (createProxySettings ip none none).port = 9050 ∧
      (createProxySettings ip none none).type = 5 := by
  refine ⟨?_, ?_, ?_, ?_⟩
  · simp only [createProxySettings]
    split
    · simp
    · rename_i h
      exact h
  · simp [createProxySettings, jsOrString]
  · simp only [createProxySettings, jsOrNat]
    split <;> rfl
  · simp only [createProxySettings, jsOrNat]
    split <;> rfl

/-- C10: `TorControlPort.send` performs no validation of the command
batch: with the empty batch it writes exactly the single line terminator
`"\n"`, and its completion outcome on any event trace is the same as with
any other batch (so it never errors on account of the empty batch). -/
theorem send_empty_batch_writes_newline (loc : String) (events : List SockEvent) :
    (TorControlPort.send loc [] events).written = "\n" ∧
      ∀ commands : List String,
        (TorControlPort.send loc [] events).outcome =
          (TorControlPort.send loc commands events).outcome :=
  ⟨rfl, fun _ => rfl⟩

/-- C4: the byte sequence `renewTorSession` hands to the transport in its
single write is exactly the three command lines `authenticate "<password>"`,
`signal newnym`, `quit` joined by `"\n"` with one trailing `"\n"`. -/
theorem renewTorSession_write_serialization (loc password : String) (events : List SockEvent) :
    (renewTorSession loc password events).written =
      "authenticate \"" ++ password ++ "\"\nsignal newnym\nquit\n" := by
  show jsJoin "\n" (renewCommands password) ++ "\n" = _
  apply String.ext
  simp only [renewCommands, jsJoin, String.data_append, List.append_assoc]
  congr 1

/-- C2: whenever the transport completes with peer close and the
accumulated response classifies as successful, `renewTorSession`
completes with a nil error and the message exactly
`"Tor session successfully renewed!!"`. -/
theorem renewTorSession_classify_true_success (loc password raw : String)
    (events : List SockEvent)
    (h1 : runSendEvents loc events "" = some (Except.ok raw))
    (h2 : classify raw = true) :
    (renewTorSession loc password events).outcome =
      some (Except.ok "Tor session successfully renewed!!") := by
  show (runSendEvents loc events "").map (renewFromSend loc) = _
  rw [h1]
  simp [renewFromSend, h2, renewSuccessMessage]

/-- Witness for C2: the response `"250 OK\n250 OK\n250 closing
connection\n"` yields the success outcome with the fixed message. -/
theorem renewTorSession_classify_true_success_witness :
    (renewTorSession "" ""
        [SockEvent.data "250 OK\n250 OK\n250 closing connection\n", SockEvent.ended]).outcome =
      some (Except.ok "Tor session successfully renewed!!") :=
  renewTorSession_classify_true_success "" "" "250 OK\n250 OK\n250 closing connection\n" _
    (by rfl) (by decide)

/-- C3: whenever the transport completes with peer close and the
accumulated response classifies as unsuccessful, `renewTorSession`
completes with an error whose message contains the fixed preamble
`"Error communicating with Tor ControlPort"` followed by the full raw
response verbatim. -/
theorem renewTorSession_classify_false_failure (loc password raw : String)
    (events : List SockEvent)
    (h1 : runSendEvents loc events "" = some (Except.ok raw))
    (h2 : classify raw = false) :
    ∃ m, (renewTorSession loc password events).outcome = some (Except.error m) ∧
      ("Error communicating with Tor ControlPort\n" ++ raw).toList <:+: m.toList := by
  refine ⟨attachCommonControlPortErrorDetails loc
      ("Error communicating with Tor ControlPort\n" ++ raw), ?_, ?_⟩
  · show (runSendEvents loc events "").map (renewFromSend loc) = _
    rw [h1]
    simp [renewFromSend, h2]
  · unfold attachCommonControlPortErrorDetails
    split
    · exact List.infix_refl _
    · rw [strToList_append]
      exact ⟨[], (controlPortAttachment loc).toList, by simp⟩

/-- Witness for C3: the response `"515 Something went wrong\n"` yields a
failure whose message contains the preamble and the raw response. -/
theorem renewTorSession_classify_false_failure_witness :
    ∃ m, (renewTorSession "" ""
        [SockEvent.data "515 Something went wrong\n", SockEvent.ended]).outcome =
          some (Except.error m) ∧
      ("Error communicating with Tor ControlPort\n" ++
          "515 Something went wrong\n").toList <:+: m.toList :=
  renewTorSession_classify_false_failure "" "" "515 Something went wrong\n" _
    (by rfl) (by decide)

/-- C7: when the transport signals an error before the peer-closed event,
the renewal outcome is exactly the propagated failure built from the
error message with the ControlPort hint attached — independent of any
data received, so the classifier is never consulted — and that message
contains the remediation hint substring. -/
theorem transport_error_skips_classifier (loc password m : String) (pre rest : List SockEvent)
    (hpre : ∀ e ∈ pre, ∃ c, e = SockEvent.data c) :
    (renewTorSession loc password (pre ++ SockEvent.error m :: rest)).outcome =
        some (Except.error (attachCommonControlPortErrorDetails loc m)) ∧
      hintCore.toList <:+: (attachCommonControlPortErrorDetails loc m).toList := by
  constructor
  · show (runSendEvents loc (pre ++ SockEvent.error m :: rest) "").map (renewFromSend loc) = _
    rw [runSendEvents_error_first loc m rest pre "" hpre]
    simp [renewFromSend, attachDetails_idem]
  · exact hintCore_infix_attach loc m

/-- Witness for C7: a connection error after a partial data chunk yields
the propagated failure with the hint attached. -/
theorem transport_error_skips_classifier_witness :
    (renewTorSession "" "" ([SockEvent.data "partial"] ++ SockEvent.error "boom" :: [])).outcome =
        some (Except.error (attachCommonControlPortErrorDetails "" "boom")) ∧
      hintCore.toList <:+: (attachCommonControlPortErrorDetails "" "boom").toList :=
  transport_error_skips_classifier "" "" "boom" [SockEvent.data "partial"] []
    (by
      intro e he
      rw [List.mem_singleton] at he
      exact ⟨"partial", he⟩)

end TorFetch
